import Mathlib

/-!
Verification of the planetary-simulation core of `planets.py`.

The source manipulates Python floats; the embedding models them as real
numbers.  Python `int(...)` truncation toward zero is modelled by `pyInt`.
Object identity in the driver loop is modelled by indices into an
append-only heap: `SimState.heap` holds every planet object ever created,
`SimState.pop` is the list of indices currently in the `planets` list, and
`SimState.largest` is the (possibly stale) `largest_planet` reference.
-/

namespace Planets

noncomputable section

/-- Constants from the source header. -/
def WIDTH : ℝ := 1000

def HEIGHT : ℝ := 1000

/-- `CENTER = (WIDTH // 2, HEIGHT // 2)`. -/
def CENTER : ℝ × ℝ := (500, 500)

def GRAVITATIONAL_CONSTANT : ℝ := 5

def MASS_MULTIPLIER : ℝ := 1

def TIME_STEP : ℝ := 1

def MIN_RADIUS : ℝ := 5

def DAMPING_FACTOR : ℝ := 0.2

def CENTER_THRESHOLD : ℝ := 10

/-- Python `int(...)` applied to a float: truncation toward zero. -/
def pyInt (q : ℝ) : ℤ := if 0 ≤ q then ⌊q⌋ else ⌈q⌉

/-- `get_color_from_radius` from the source: red/blue ramp scaled by
`factor = min(1, radius / 200)`, each channel truncated by `int(...)`. -/
def get_color_from_radius (radius : ℝ) : ℤ × ℤ × ℤ :=
  let max_radius_for_color : ℝ := 200
  let factor : ℝ := min 1 (radius / max_radius_for_color)
  (pyInt (128 + factor * 127), pyInt 0, pyInt (128 - factor * 128))

/-- The Python class of a planet object, deciding method dispatch. -/
inductive PKind where
  | standard
  | noncolliding
  | ghost
deriving DecidableEq

/-- A planet object: the fields set by `Planet.__init__` plus the class tag. -/
@[ext] structure Planet where
  x : ℝ
  y : ℝ
  radius : ℝ
  mass : ℝ
  vx : ℝ
  vy : ℝ
  ax : ℝ
  ay : ℝ
  color : ℤ × ℤ × ℤ
  is_largest : Bool
  is_collidable : Bool
  kind : PKind

/-- `Planet.__init__`. -/
def mkPlanet (x y radius : ℝ) (vx vy : ℝ) : Planet :=
  { x := x, y := y, radius := radius, mass := radius * MASS_MULTIPLIER
    vx := vx, vy := vy, ax := 0, ay := 0
    color := get_color_from_radius radius
    is_largest := false, is_collidable := true, kind := .standard }

/-- `NonCollidingPlanet.__init__`: the base init, then collidability off and
a white color. -/
def mkNonCollidingPlanet (x y radius : ℝ) (vx vy : ℝ) : Planet :=
  { mkPlanet x y radius vx vy with
    is_collidable := false, color := (255, 255, 255), kind := .noncolliding }

/-- `GhostPlanet.__init__`: the non-colliding init (collidability off and a
white color are re-assigned with the same values). -/
def mkGhostPlanet (x y radius : ℝ) (vx vy : ℝ) : Planet :=
  { mkNonCollidingPlanet x y radius vx vy with
    is_collidable := false, color := (255, 255, 255), kind := .ghost }

instance : Inhabited Planet := ⟨mkPlanet 0 0 5 0 0⟩

/-- The shared body of `Planet.apply_gravity` and the `GhostPlanet` override:
the inverse-square contribution added into the acceleration accumulator. -/
def gravityBump (self other : Planet) : Planet :=
  let dx := other.x - self.x
  let dy := other.y - self.y
  let distance := Real.sqrt (dx ^ 2 + dy ^ 2) + 0.01
  let force := GRAVITATIONAL_CONSTANT * self.mass * other.mass / distance ^ 2
  { self with
    ax := self.ax + force * dx / (distance * self.mass)
    ay := self.ay + force * dy / (distance * self.mass) }

/-- `apply_gravity`, with dynamic dispatch on the class: `GhostPlanet`
overrides it with an early return when the other body is not collidable
followed by the same formula, `Planet` (and hence `NonCollidingPlanet`,
which does not override it) guards the same formula by the collidability of
the other body. -/
def Planet.apply_gravity (self other : Planet) : Planet :=
  match self.kind with
  | .ghost => if ¬ other.is_collidable then self else gravityBump self other
  | _ => if other.is_collidable then gravityBump self other else self

/-- `Planet.apply_gravity_to_center`. -/
def Planet.apply_gravity_to_center (self : Planet) : Planet :=
  if self.is_largest then
    let dx := CENTER.1 - self.x
    let dy := CENTER.2 - self.y
    let distance := Real.sqrt (dx ^ 2 + dy ^ 2) + 0.01
    if distance < CENTER_THRESHOLD then self
    else
      let force := 0.5 * GRAVITATIONAL_CONSTANT * self.mass * self.mass / distance ^ 2
      { self with
        ax := self.ax + force * dx / (distance * self.mass)
        ay := self.ay + force * dy / (distance * self.mass) }
  else self

/-- The distance expression of `apply_gravity_to_center`: the Euclidean
distance from the body to the fixed world center, plus the epsilon offset. -/
def centerDistance (p : Planet) : ℝ :=
  Real.sqrt ((CENTER.1 - p.x) ^ 2 + (CENTER.2 - p.y) ^ 2) + 0.01

/-- A flagged standard body at Euclidean distance 10 from the world center
(Pythagorean offsets 6 and 8), used to evaluate the central force. -/
def centerProbe : Planet :=
  { mkPlanet 494 492 5 0 0 with is_largest := true }

/-- `Planet.update_position`: velocity first, then position from the updated
velocity, then the acceleration accumulator is reset. -/
def Planet.update_position (self : Planet) (dt : ℝ) : Planet :=
  let vx := self.vx + self.ax * dt
  let vy := self.vy + self.ay * dt
  { self with
    vx := vx, vy := vy
    x := self.x + vx * dt, y := self.y + vy * dt
    ax := 0, ay := 0 }

/-- `Planet.merge`: the source assigns `self.mass = new_mass` before the
velocity update, so the `self.vx * self.mass` read in the velocity formula
sees `new_mass`. -/
def Planet.merge (self other : Planet) : Planet :=
  let new_radius := Real.sqrt (self.radius ^ 2 + other.radius ^ 2)
  let new_mass := self.mass + other.mass
  let radius : ℝ := (pyInt new_radius : ℝ)
  { self with
    radius := radius
    mass := new_mass
    color := get_color_from_radius radius
    vx := (self.vx * new_mass + other.vx * other.mass) / new_mass
    vy := (self.vy * new_mass + other.vy * other.mass) / new_mass }

/-- `check_collision`, with dynamic dispatch: `NonCollidingPlanet` (and the
inheriting `GhostPlanet`) override it to return `False` with no side effect;
the base version compares the center distance to the radius sum and merges
on overlap.  The returned pair is (result, updated self). -/
def Planet.check_collision (self other : Planet) : Bool × Planet :=
  match self.kind with
  | .standard =>
    let dx := other.x - self.x
    let dy := other.y - self.y
    let distance := Real.sqrt (dx ^ 2 + dy ^ 2)
    if distance < self.radius + other.radius then (true, self.merge other)
    else (false, self)
  | _ => (false, self)

/-- Driver state of `main`: `heap` is the set of planet objects ever
created (indexed by creation order), `pop` the indices currently in the
`planets` list, `largest` the `largest_planet` reference (which can point at
an object no longer in `pop`). -/
structure SimState where
  heap : List Planet
  pop : List ℕ
  largest : Option ℕ

/-- Inner loop of the collision pass: `for other_planet in planets[i+1:]`,
testing planet `i` (in its current state) against each later planet and
recording hits in the removal set. -/
def collideInner (i : ℕ) (js : List ℕ) (heap : List Planet) (rem : List ℕ) :
    List Planet × List ℕ :=
  match js with
  | [] => (heap, rem)
  | j :: rest =>
    let r := (heap.getD i default).check_collision (heap.getD j default)
    collideInner i rest (heap.set i r.2) (if r.1 then j :: rem else rem)

/-- Outer loop of the collision pass: `for i, planet in enumerate(planets)`. -/
def collideOuter (is : List ℕ) (heap : List Planet) (rem : List ℕ) :
    List Planet × List ℕ :=
  match is with
  | [] => (heap, rem)
  | i :: rest =>
    let r := collideInner i rest heap rem
    collideOuter rest r.1 r.2

/-- One planet of the force pass: gravity from every other planet
(`planet != other` is object identity, here index inequality), then the
center pull. -/
def gravityFold (i : ℕ) (all : List ℕ) (heap : List Planet) : Planet :=
  all.foldl (fun p j => if j ≠ i then p.apply_gravity (heap.getD j default) else p)
    (heap.getD i default)

/-- Force pass over the surviving population. -/
def forceLoop (is : List ℕ) (all : List ℕ) (heap : List Planet) : List Planet :=
  match is with
  | [] => heap
  | i :: rest =>
    forceLoop rest all (heap.set i (gravityFold i all heap).apply_gravity_to_center)

/-- Integration pass: `planet.update_position(TIME_STEP)` on each survivor. -/
def integrateLoop (is : List ℕ) (dt : ℝ) (heap : List Planet) : List Planet :=
  match is with
  | [] => heap
  | i :: rest => integrateLoop rest dt (heap.set i ((heap.getD i default).update_position dt))

/-- One simulation tick of `main`: collision pass, removal of the collected
set, force pass, integration pass. -/
def tick (s : SimState) (dt : ℝ) : SimState :=
  let cr := collideOuter s.pop s.heap []
  let pop2 := s.pop.filter fun i => decide (i ∉ cr.2)
  let heap3 := forceLoop pop2 pop2 cr.1
  { heap := integrateLoop pop2 dt heap3, pop := pop2, largest := s.largest }

/-- The operations the event loop of `main` performs on the population:
completing the two-click creation gesture (press position, millisecond hold
duration, velocity-target position), the two variant spawn keys, the clear
key, and a simulation tick. -/
inductive Event where
  | createStandard (px py : ℝ) (diffMs : ℕ) (tx ty : ℝ)
  | spawnNonColliding (x y : ℝ)
  | spawnGhost (x y : ℝ)
  | clear
  | tick (dt : ℝ)

/-- One event-loop operation.  Standard creation computes
`radius = max(MIN_RADIUS, int((release - press)/100))` and
`v = (target - press) * 0.05`, appends the planet, and runs the
largest-planet update of `main`; the variant keys spawn at minimum radius
with zero velocity; space clears only the `planets` list. -/
def stepEvent (s : SimState) (e : Event) : SimState :=
  match e with
  | .createStandard px py diffMs tx ty =>
    let radius : ℝ := max MIN_RADIUS ((diffMs / 100 : ℕ) : ℝ)
    let p := mkPlanet px py radius ((tx - px) * 0.05) ((ty - py) * 0.05)
    let newId := s.heap.length
    let heap1 := s.heap ++ [p]
    let pop1 := s.pop ++ [newId]
    match s.largest with
    | none =>
      { heap := heap1.set newId { p with is_largest := true }
        pop := pop1, largest := some newId }
    | some k =>
      if radius > (s.heap.getD k default).radius then
        { heap := (heap1.set k { heap1.getD k default with is_largest := false }).set newId
            { p with is_largest := true }
          pop := pop1, largest := some newId }
      else { heap := heap1, pop := pop1, largest := some k }
  | .spawnNonColliding x y =>
    { heap := s.heap ++ [mkNonCollidingPlanet x y MIN_RADIUS 0 0]
      pop := s.pop ++ [s.heap.length], largest := s.largest }
  | .spawnGhost x y =>
    { heap := s.heap ++ [mkGhostPlanet x y MIN_RADIUS 0 0]
      pop := s.pop ++ [s.heap.length], largest := s.largest }
  | .clear => { s with pop := [] }
  | .tick dt => tick s dt

/-- The driver run from the initial state of `main`. -/
def run (es : List Event) : SimState :=
  es.foldl stepEvent { heap := [], pop := [], largest := none }

/-- The body-level invariant: positive mass and radius at least the
configured minimum. -/
def massRadiusOK (p : Planet) : Prop :=
  0 < p.mass ∧ MIN_RADIUS ≤ p.radius

/-- Every flagged planet object is the one the `largest_planet` reference
points at (hence at most one object is ever flagged). -/
def largestConsistent (s : SimState) : Prop :=
  ∀ i : ℕ, (s.heap.getD i default).is_largest = true → s.largest = some i

/-! ### Basic lemmas about the embedded operations -/

lemma pyInt_of_nonneg {q : ℝ} (h : 0 ≤ q) : pyInt q = ⌊q⌋ := if_pos h

lemma sqrt_eval {a b : ℝ} (hb : 0 ≤ b) (h : b * b = a) : Real.sqrt a = b := by
  rw [← h]; exact Real.sqrt_mul_self hb

lemma floor_sqrt_50 : ⌊Real.sqrt 50⌋ = 7 := by
  rw [Int.floor_eq_iff]
  constructor
  · rw [show ((7 : ℤ) : ℝ) = 7 by norm_num, Real.le_sqrt (by norm_num) (by norm_num)]
    norm_num
  · rw [show ((7 : ℤ) : ℝ) + 1 = 8 by norm_num, Real.sqrt_lt' (by norm_num)]
    norm_num

lemma floor_eval {q : ℝ} {z : ℤ} (h1 : (z : ℝ) ≤ q) (h2 : q < z + 1) : ⌊q⌋ = z := by
  rw [Int.floor_eq_iff]
  exact ⟨h1, h2⟩

lemma apply_gravity_cases (p q : Planet) :
    p.apply_gravity q = p ∨ p.apply_gravity q = gravityBump p q := by
  unfold Planet.apply_gravity
  cases p.kind <;> dsimp only <;> split <;> tauto

lemma apply_gravity_to_center_cases (p : Planet) :
    p.apply_gravity_to_center = p ∨
      ∃ a b, p.apply_gravity_to_center = { p with ax := a, ay := b } := by
  simp only [Planet.apply_gravity_to_center]
  split
  · split
    · tauto
    · right; exact ⟨_, _, rfl⟩
  · tauto

lemma check_collision_snd_cases (p q : Planet) :
    (p.check_collision q).2 = p ∨ (p.check_collision q).2 = p.merge q := by
  unfold Planet.check_collision
  cases p.kind <;> dsimp only <;> first | (split <;> tauto) | tauto

@[simp] lemma gravityBump_x (p q : Planet) : (gravityBump p q).x = p.x := rfl
@[simp] lemma gravityBump_y (p q : Planet) : (gravityBump p q).y = p.y := rfl
@[simp] lemma gravityBump_vx (p q : Planet) : (gravityBump p q).vx = p.vx := rfl
@[simp] lemma gravityBump_vy (p q : Planet) : (gravityBump p q).vy = p.vy := rfl
@[simp] lemma gravityBump_mass (p q : Planet) : (gravityBump p q).mass = p.mass := rfl
@[simp] lemma gravityBump_radius (p q : Planet) : (gravityBump p q).radius = p.radius := rfl
@[simp] lemma gravityBump_is_largest (p q : Planet) :
    (gravityBump p q).is_largest = p.is_largest := rfl
@[simp] lemma gravityBump_kind (p q : Planet) : (gravityBump p q).kind = p.kind := rfl

@[simp] lemma apply_gravity_x (p q : Planet) : (p.apply_gravity q).x = p.x := by
  rcases apply_gravity_cases p q with h | h <;> simp [h]
@[simp] lemma apply_gravity_y (p q : Planet) : (p.apply_gravity q).y = p.y := by
  rcases apply_gravity_cases p q with h | h <;> simp [h]
@[simp] lemma apply_gravity_vx (p q : Planet) : (p.apply_gravity q).vx = p.vx := by
  rcases apply_gravity_cases p q with h | h <;> simp [h]
@[simp] lemma apply_gravity_vy (p q : Planet) : (p.apply_gravity q).vy = p.vy := by
  rcases apply_gravity_cases p q with h | h <;> simp [h]
@[simp] lemma apply_gravity_mass (p q : Planet) : (p.apply_gravity q).mass = p.mass := by
  rcases apply_gravity_cases p q with h | h <;> simp [h]
@[simp] lemma apply_gravity_radius (p q : Planet) : (p.apply_gravity q).radius = p.radius := by
  rcases apply_gravity_cases p q with h | h <;> simp [h]
@[simp] lemma apply_gravity_is_largest (p q : Planet) :
    (p.apply_gravity q).is_largest = p.is_largest := by
  rcases apply_gravity_cases p q with h | h <;> simp [h]
@[simp] lemma apply_gravity_kind (p q : Planet) : (p.apply_gravity q).kind = p.kind := by
  rcases apply_gravity_cases p q with h | h <;> simp [h]

@[simp] lemma agc_x (p : Planet) : p.apply_gravity_to_center.x = p.x := by
  rcases apply_gravity_to_center_cases p with h | ⟨a, b, h⟩ <;> simp [h]
@[simp] lemma agc_y (p : Planet) : p.apply_gravity_to_center.y = p.y := by
  rcases apply_gravity_to_center_cases p with h | ⟨a, b, h⟩ <;> simp [h]
@[simp] lemma agc_vx (p : Planet) : p.apply_gravity_to_center.vx = p.vx := by
  rcases apply_gravity_to_center_cases p with h | ⟨a, b, h⟩ <;> simp [h]
@[simp] lemma agc_vy (p : Planet) : p.apply_gravity_to_center.vy = p.vy := by
  rcases apply_gravity_to_center_cases p with h | ⟨a, b, h⟩ <;> simp [h]
@[simp] lemma agc_mass (p : Planet) : p.apply_gravity_to_center.mass = p.mass := by
  rcases apply_gravity_to_center_cases p with h | ⟨a, b, h⟩ <;> simp [h]
@[simp] lemma agc_radius (p : Planet) : p.apply_gravity_to_center.radius = p.radius := by
  rcases apply_gravity_to_center_cases p with h | ⟨a, b, h⟩ <;> simp [h]
@[simp] lemma agc_is_largest (p : Planet) :
    p.apply_gravity_to_center.is_largest = p.is_largest := by
  rcases apply_gravity_to_center_cases p with h | ⟨a, b, h⟩ <;> simp [h]
@[simp] lemma agc_kind (p : Planet) : p.apply_gravity_to_center.kind = p.kind := by
  rcases apply_gravity_to_center_cases p with h | ⟨a, b, h⟩ <;> simp [h]

@[simp] lemma update_position_mass (p : Planet) (dt : ℝ) :
    (p.update_position dt).mass = p.mass := rfl
@[simp] lemma update_position_radius (p : Planet) (dt : ℝ) :
    (p.update_position dt).radius = p.radius := rfl
@[simp] lemma update_position_is_largest (p : Planet) (dt : ℝ) :
    (p.update_position dt).is_largest = p.is_largest := rfl
@[simp] lemma update_position_kind (p : Planet) (dt : ℝ) :
    (p.update_position dt).kind = p.kind := rfl

@[simp] lemma merge_x (p q : Planet) : (p.merge q).x = p.x := rfl
@[simp] lemma merge_y (p q : Planet) : (p.merge q).y = p.y := rfl
@[simp] lemma merge_mass (p q : Planet) : (p.merge q).mass = p.mass + q.mass := rfl
@[simp] lemma merge_is_largest (p q : Planet) : (p.merge q).is_largest = p.is_largest := rfl
@[simp] lemma merge_kind (p q : Planet) : (p.merge q).kind = p.kind := rfl

lemma merge_radius (p q : Planet) :
    (p.merge q).radius = ((⌊Real.sqrt (p.radius ^ 2 + q.radius ^ 2)⌋ : ℤ) : ℝ) := by
  unfold Planet.merge
  dsimp only
  rw [pyInt_of_nonneg (by positivity)]

@[simp] lemma check_collision_snd_x (p q : Planet) :
    (p.check_collision q).2.x = p.x := by
  rcases check_collision_snd_cases p q with h | h <;> simp [h]
@[simp] lemma check_collision_snd_y (p q : Planet) :
    (p.check_collision q).2.y = p.y := by
  rcases check_collision_snd_cases p q with h | h <;> simp [h]
@[simp] lemma check_collision_snd_is_largest (p q : Planet) :
    (p.check_collision q).2.is_largest = p.is_largest := by
  rcases check_collision_snd_cases p q with h | h <;> simp [h]
@[simp] lemma check_collision_snd_kind (p q : Planet) :
    (p.check_collision q).2.kind = p.kind := by
  rcases check_collision_snd_cases p q with h | h <;> simp [h]

/-- `getD` after `set`, in one closed form. -/
lemma getD_set (l : List Planet) (i k : ℕ) (v d : Planet) :
    (l.set i v).getD k d = if i = k ∧ i < l.length then v else l.getD k d := by
  induction l generalizing i k with
  | nil => simp [List.getD]
  | cons a t ih =>
    cases i with
    | zero =>
      cases k with
      | zero => simp
      | succ k => simp [List.getD]
    | succ i =>
      cases k with
      | zero => simp [List.getD]
      | succ k =>
        simp only [List.set, List.getD_cons_succ, List.length_cons, ih]
        exact if_congr (by omega) rfl rfl

lemma getD_append_lt (l l2 : List Planet) (i : ℕ) (h : i < l.length) (d : Planet) :
    (l ++ l2).getD i d = l.getD i d :=
  List.getD_append l l2 d i h

lemma getD_append_len (l : List Planet) (v d : Planet) : (l ++ [v]).getD l.length d = v := by
  rw [List.getD_eq_getElem?_getD, List.getElem?_append_right le_rfl]
  simp

lemma getD_append_gt (l : List Planet) (v d : Planet) (i : ℕ) (h : l.length < i) :
    (l ++ [v]).getD i d = d := by
  rw [List.getD_eq_getElem?_getD, List.getElem?_append_right (le_of_lt h)]
  have h1 : 1 ≤ i - l.length := by omega
  rw [List.getElem?_eq_none (by simpa using h1)]
  rfl

@[simp] lemma default_planet_is_largest : (default : Planet).is_largest = false := rfl

lemma default_massRadiusOK : massRadiusOK (default : Planet) := by
  constructor
  · norm_num [default, mkPlanet, MASS_MULTIPLIER]
  · norm_num [default, mkPlanet, MIN_RADIUS]

/-- A planet-valued or scalar view preserved by the gravity fold of the
force pass. -/
lemma foldl_gravity_proj {α : Sort 1} (F : Planet → α)
    (hF : ∀ p q : Planet, F (p.apply_gravity q) = F p) (i : ℕ) (heap : List Planet) :
    ∀ (l : List ℕ) (p : Planet),
      F (l.foldl (fun p j => if j ≠ i then p.apply_gravity (heap.getD j default) else p) p) = F p := by
  intro l
  induction l with
  | nil => intro p; rfl
  | cons j rest ih =>
    intro p
    rw [List.foldl_cons, ih]
    split
    · exact hF p _
    · rfl

lemma gravityFold_proj {α : Sort 1} (F : Planet → α)
    (hF : ∀ p q : Planet, F (p.apply_gravity q) = F p) (i : ℕ) (all : List ℕ)
    (heap : List Planet) : F (gravityFold i all heap) = F (heap.getD i default) :=
  foldl_gravity_proj F hF i heap all _

lemma forceLoop_getD_proj {α : Sort 1} (F : Planet → α)
    (hg : ∀ p q : Planet, F (p.apply_gravity q) = F p)
    (hc : ∀ p : Planet, F p.apply_gravity_to_center = F p) :
    ∀ (is all : List ℕ) (heap : List Planet) (k : ℕ),
      F ((forceLoop is all heap).getD k default) = F (heap.getD k default) := by
  intro is
  induction is with
  | nil => intro all heap k; rfl
  | cons i rest ih =>
    intro all heap k
    show F ((forceLoop rest all _).getD k default) = _
    rw [ih, getD_set]
    split
    · next h =>
      rw [hc, gravityFold_proj F hg, h.1]
    · rfl

lemma integrateLoop_getD_proj {α : Sort 1} (F : Planet → α)
    (hu : ∀ (p : Planet) (dt : ℝ), F (p.update_position dt) = F p) :
    ∀ (is : List ℕ) (dt : ℝ) (heap : List Planet) (k : ℕ),
      F ((integrateLoop is dt heap).getD k default) = F (heap.getD k default) := by
  intro is
  induction is with
  | nil => intro dt heap k; rfl
  | cons i rest ih =>
    intro dt heap k
    show F ((integrateLoop rest dt _).getD k default) = _
    rw [ih, getD_set]
    split
    · next h => rw [hu, h.1]
    · rfl

lemma collideInner_getD_proj {α : Sort 1} (F : Planet → α)
    (hm : ∀ p q : Planet, F (p.check_collision q).2 = F p) (i : ℕ) :
    ∀ (js : List ℕ) (heap : List Planet) (rem : List ℕ) (k : ℕ),
      F ((collideInner i js heap rem).1.getD k default) = F (heap.getD k default) := by
  intro js
  induction js with
  | nil => intro heap rem k; rfl
  | cons j rest ih =>
    intro heap rem k
    show F ((collideInner i rest _ _).1.getD k default) = _
    rw [ih, getD_set]
    split
    · next h => rw [hm, h.1]
    · rfl

lemma collideOuter_getD_proj {α : Sort 1} (F : Planet → α)
    (hm : ∀ p q : Planet, F (p.check_collision q).2 = F p) :
    ∀ (is : List ℕ) (heap : List Planet) (rem : List ℕ) (k : ℕ),
      F ((collideOuter is heap rem).1.getD k default) = F (heap.getD k default) := by
  intro is
  induction is with
  | nil => intro heap rem k; rfl
  | cons i rest ih =>
    intro heap rem k
    show F ((collideOuter rest _ _).1.getD k default) = _
    rw [ih, collideInner_getD_proj F hm]

@[simp] lemma integrateLoop_getD_mass (is : List ℕ) (dt : ℝ) (heap : List Planet) (k : ℕ) :
    ((integrateLoop is dt heap).getD k default).mass = (heap.getD k default).mass :=
  integrateLoop_getD_proj Planet.mass update_position_mass is dt heap k

@[simp] lemma integrateLoop_getD_radius (is : List ℕ) (dt : ℝ) (heap : List Planet) (k : ℕ) :
    ((integrateLoop is dt heap).getD k default).radius = (heap.getD k default).radius :=
  integrateLoop_getD_proj Planet.radius update_position_radius is dt heap k

@[simp] lemma integrateLoop_getD_is_largest (is : List ℕ) (dt : ℝ) (heap : List Planet) (k : ℕ) :
    ((integrateLoop is dt heap).getD k default).is_largest =
      (heap.getD k default).is_largest :=
  integrateLoop_getD_proj Planet.is_largest update_position_is_largest is dt heap k

@[simp] lemma forceLoop_getD_mass (is all : List ℕ) (heap : List Planet) (k : ℕ) :
    ((forceLoop is all heap).getD k default).mass = (heap.getD k default).mass :=
  forceLoop_getD_proj Planet.mass apply_gravity_mass agc_mass is all heap k

@[simp] lemma forceLoop_getD_radius (is all : List ℕ) (heap : List Planet) (k : ℕ) :
    ((forceLoop is all heap).getD k default).radius = (heap.getD k default).radius :=
  forceLoop_getD_proj Planet.radius apply_gravity_radius agc_radius is all heap k

@[simp] lemma forceLoop_getD_vx (is all : List ℕ) (heap : List Planet) (k : ℕ) :
    ((forceLoop is all heap).getD k default).vx = (heap.getD k default).vx :=
  forceLoop_getD_proj Planet.vx apply_gravity_vx agc_vx is all heap k

@[simp] lemma forceLoop_getD_vy (is all : List ℕ) (heap : List Planet) (k : ℕ) :
    ((forceLoop is all heap).getD k default).vy = (heap.getD k default).vy :=
  forceLoop_getD_proj Planet.vy apply_gravity_vy agc_vy is all heap k

@[simp] lemma forceLoop_getD_x (is all : List ℕ) (heap : List Planet) (k : ℕ) :
    ((forceLoop is all heap).getD k default).x = (heap.getD k default).x :=
  forceLoop_getD_proj Planet.x apply_gravity_x agc_x is all heap k

@[simp] lemma forceLoop_getD_y (is all : List ℕ) (heap : List Planet) (k : ℕ) :
    ((forceLoop is all heap).getD k default).y = (heap.getD k default).y :=
  forceLoop_getD_proj Planet.y apply_gravity_y agc_y is all heap k

@[simp] lemma forceLoop_getD_is_largest (is all : List ℕ) (heap : List Planet) (k : ℕ) :
    ((forceLoop is all heap).getD k default).is_largest = (heap.getD k default).is_largest :=
  forceLoop_getD_proj Planet.is_largest apply_gravity_is_largest agc_is_largest is all heap k

@[simp] lemma collideOuter_getD_x (is : List ℕ) (heap : List Planet) (rem : List ℕ) (k : ℕ) :
    ((collideOuter is heap rem).1.getD k default).x = (heap.getD k default).x :=
  collideOuter_getD_proj Planet.x check_collision_snd_x is heap rem k

@[simp] lemma collideOuter_getD_y (is : List ℕ) (heap : List Planet) (rem : List ℕ) (k : ℕ) :
    ((collideOuter is heap rem).1.getD k default).y = (heap.getD k default).y :=
  collideOuter_getD_proj Planet.y check_collision_snd_y is heap rem k

@[simp] lemma collideOuter_getD_is_largest (is : List ℕ) (heap : List Planet) (rem : List ℕ)
    (k : ℕ) :
    ((collideOuter is heap rem).1.getD k default).is_largest =
      (heap.getD k default).is_largest :=
  collideOuter_getD_proj Planet.is_largest check_collision_snd_is_largest is heap rem k

@[simp] lemma integrateLoop_getElem_mass (is : List ℕ) (dt : ℝ) (heap : List Planet) (k : ℕ) :
    ((integrateLoop is dt heap)[k]?.getD default).mass = (heap[k]?.getD default).mass := by
  rw [← List.getD_eq_getElem?_getD, ← List.getD_eq_getElem?_getD]
  exact integrateLoop_getD_mass is dt heap k

@[simp] lemma integrateLoop_getElem_radius (is : List ℕ) (dt : ℝ) (heap : List Planet)
    (k : ℕ) :
    ((integrateLoop is dt heap)[k]?.getD default).radius = (heap[k]?.getD default).radius := by
  rw [← List.getD_eq_getElem?_getD, ← List.getD_eq_getElem?_getD]
  exact integrateLoop_getD_radius is dt heap k

@[simp] lemma integrateLoop_getElem_is_largest (is : List ℕ) (dt : ℝ) (heap : List Planet)
    (k : ℕ) :
    ((integrateLoop is dt heap)[k]?.getD default).is_largest =
      (heap[k]?.getD default).is_largest := by
  rw [← List.getD_eq_getElem?_getD, ← List.getD_eq_getElem?_getD]
  exact integrateLoop_getD_is_largest is dt heap k

@[simp] lemma forceLoop_getElem_mass (is all : List ℕ) (heap : List Planet) (k : ℕ) :
    ((forceLoop is all heap)[k]?.getD default).mass = (heap[k]?.getD default).mass := by
  rw [← List.getD_eq_getElem?_getD, ← List.getD_eq_getElem?_getD]
  exact forceLoop_getD_mass is all heap k

@[simp] lemma forceLoop_getElem_radius (is all : List ℕ) (heap : List Planet) (k : ℕ) :
    ((forceLoop is all heap)[k]?.getD default).radius = (heap[k]?.getD default).radius := by
  rw [← List.getD_eq_getElem?_getD, ← List.getD_eq_getElem?_getD]
  exact forceLoop_getD_radius is all heap k

@[simp] lemma forceLoop_getElem_is_largest (is all : List ℕ) (heap : List Planet) (k : ℕ) :
    ((forceLoop is all heap)[k]?.getD default).is_largest =
      (heap[k]?.getD default).is_largest := by
  rw [← List.getD_eq_getElem?_getD, ← List.getD_eq_getElem?_getD]
  exact forceLoop_getD_is_largest is all heap k

@[simp] lemma forceLoop_getElem_vx (is all : List ℕ) (heap : List Planet) (k : ℕ) :
    ((forceLoop is all heap)[k]?.getD default).vx = (heap[k]?.getD default).vx := by
  rw [← List.getD_eq_getElem?_getD, ← List.getD_eq_getElem?_getD]
  exact forceLoop_getD_vx is all heap k

@[simp] lemma update_position_vx (p : Planet) (dt : ℝ) :
    (p.update_position dt).vx = p.vx + p.ax * dt := rfl

@[simp] lemma update_position_vy (p : Planet) (dt : ℝ) :
    (p.update_position dt).vy = p.vy + p.ay * dt := rfl

@[simp] lemma merge_vx (p q : Planet) :
    (p.merge q).vx = (p.vx * (p.mass + q.mass) + q.vx * q.mass) / (p.mass + q.mass) := rfl

@[simp] lemma merge_vy (p q : Planet) :
    (p.merge q).vy = (p.vy * (p.mass + q.mass) + q.vy * q.mass) / (p.mass + q.mass) := rfl

/-- Integrating with dt = 0 only clears the acceleration accumulator. -/
lemma update_position_zero (p : Planet) :
    p.update_position 0 = { p with ax := 0, ay := 0 } := by
  ext <;> simp [Planet.update_position]

lemma integrateLoop_getD_not_mem :
    ∀ (is : List ℕ) (dt : ℝ) (heap : List Planet) (k : ℕ), k ∉ is →
      (integrateLoop is dt heap).getD k default = heap.getD k default := by
  intro is
  induction is with
  | nil => intro dt heap k _; rfl
  | cons i rest ih =>
    intro dt heap k hk
    show (integrateLoop rest dt _).getD k default = _
    rw [ih _ _ _ (fun h => hk (List.mem_cons_of_mem i h)), getD_set,
      if_neg (by rintro ⟨h1, h2⟩; exact hk (h1 ▸ List.mem_cons_self i rest))]

lemma integrateLoop_zero_getD_mem :
    ∀ (is : List ℕ) (heap : List Planet) (k : ℕ), k ∈ is →
      (integrateLoop is 0 heap).getD k default =
        { heap.getD k default with ax := 0, ay := 0 } := by
  intro is
  induction is with
  | nil => intro heap k hk; exact absurd hk (List.not_mem_nil k)
  | cons i rest ih =>
    intro heap k hk
    show (integrateLoop rest 0 _).getD k default = _
    by_cases hmem : k ∈ rest
    · rw [ih _ _ hmem, getD_set]
      split
      · next h => rw [update_position_zero, h.1]
      · rfl
    · have hik : i = k := by
        rcases List.mem_cons.mp hk with h | h
        · exact h.symm
        · exact absurd h hmem
      rw [integrateLoop_getD_not_mem rest 0 _ k hmem, getD_set]
      by_cases hlen : i < heap.length
      · rw [if_pos ⟨hik, hlen⟩, update_position_zero, hik]
      · rw [if_neg (fun h => hlen h.2),
          List.getD_eq_default heap default (hik ▸ le_of_not_lt hlen)]
        rfl

/-- One tick with dt = 0, seen at any surviving index: the heap entry is the
post-collision entry with the acceleration accumulator cleared. -/
lemma tick_zero_heap (s : SimState) (i : ℕ) (hi : i ∈ (tick s 0).pop) :
    (tick s 0).heap.getD i default =
      { (collideOuter s.pop s.heap []).1.getD i default with ax := 0, ay := 0 } := by
  have hg : ∀ p q : Planet,
      ({ p.apply_gravity q with ax := 0, ay := 0 } : Planet) = { p with ax := 0, ay := 0 } := by
    intro p q
    rcases apply_gravity_cases p q with h | h <;> rw [h]
    rfl
  have hc : ∀ p : Planet,
      ({ p.apply_gravity_to_center with ax := 0, ay := 0 } : Planet) =
        { p with ax := 0, ay := 0 } := by
    intro p
    rcases apply_gravity_to_center_cases p with h | ⟨a, b, h⟩ <;> rw [h]
  have hi2 : i ∈ s.pop.filter (fun j => decide (j ∉ (collideOuter s.pop s.heap []).2)) := hi
  have h1 : (tick s 0).heap.getD i default =
      { (forceLoop (s.pop.filter fun j => decide (j ∉ (collideOuter s.pop s.heap []).2))
          (s.pop.filter fun j => decide (j ∉ (collideOuter s.pop s.heap []).2))
          (collideOuter s.pop s.heap []).1).getD i default with ax := 0, ay := 0 } :=
    integrateLoop_zero_getD_mem _ _ i hi2
  rw [h1]
  exact forceLoop_getD_proj (fun p => ({ p with ax := 0, ay := 0 } : Planet)) hg hc _ _ _ i

/-! ### Preservation of the mass/radius invariant -/

lemma massRadiusOK_congr {p q : Planet} (hm : p.mass = q.mass) (hr : p.radius = q.radius) :
    massRadiusOK p ↔ massRadiusOK q := by
  rw [massRadiusOK, massRadiusOK, hm, hr]

lemma inv_getD {heap : List Planet} (h : ∀ p ∈ heap, massRadiusOK p) (i : ℕ) :
    massRadiusOK (heap.getD i default) := by
  rcases lt_or_ge i heap.length with hi | hi
  · rw [List.getD_eq_getElem heap default hi]
    exact h _ (List.getElem_mem hi)
  · rw [List.getD_eq_default heap default hi]
    exact default_massRadiusOK

lemma inv_set {heap : List Planet} (h : ∀ p ∈ heap, massRadiusOK p) {v : Planet}
    (hv : massRadiusOK v) (i : ℕ) : ∀ p ∈ heap.set i v, massRadiusOK p := by
  intro p hp
  rcases List.mem_or_eq_of_mem_set hp with h1 | h1
  · exact h _ h1
  · exact h1 ▸ hv

lemma merge_massRadiusOK {p q : Planet} (hp : massRadiusOK p) (hq : massRadiusOK q) :
    massRadiusOK (p.merge q) := by
  obtain ⟨hpm, hpr⟩ := hp
  obtain ⟨hqm, hqr⟩ := hq
  rw [MIN_RADIUS] at hpr hqr
  constructor
  · rw [merge_mass]
    linarith
  · rw [merge_radius, MIN_RADIUS]
    have h1 : (5 : ℝ) ≤ Real.sqrt (p.radius ^ 2 + q.radius ^ 2) := by
      rw [Real.le_sqrt (by linarith) (by positivity)]
      nlinarith
    have h2 : (5 : ℤ) ≤ ⌊Real.sqrt (p.radius ^ 2 + q.radius ^ 2)⌋ := by
      rw [Int.le_floor]
      exact_mod_cast h1
    exact_mod_cast h2

lemma check_collision_snd_massRadiusOK {p q : Planet} (hp : massRadiusOK p)
    (hq : massRadiusOK q) : massRadiusOK (p.check_collision q).2 := by
  rcases check_collision_snd_cases p q with h | h <;> rw [h]
  · exact hp
  · exact merge_massRadiusOK hp hq

lemma collideInner_inv (i : ℕ) :
    ∀ (js : List ℕ) (heap : List Planet) (rem : List ℕ),
      (∀ p ∈ heap, massRadiusOK p) → ∀ p ∈ (collideInner i js heap rem).1, massRadiusOK p := by
  intro js
  induction js with
  | nil => intro heap rem h; exact h
  | cons j rest ih =>
    intro heap rem h
    exact ih _ _ (inv_set h (check_collision_snd_massRadiusOK (inv_getD h i) (inv_getD h j)) i)

lemma collideOuter_inv :
    ∀ (is : List ℕ) (heap : List Planet) (rem : List ℕ),
      (∀ p ∈ heap, massRadiusOK p) → ∀ p ∈ (collideOuter is heap rem).1, massRadiusOK p := by
  intro is
  induction is with
  | nil => intro heap rem h; exact h
  | cons i rest ih =>
    intro heap rem h
    exact ih _ _ (collideInner_inv i rest heap rem h)

lemma forceLoop_inv :
    ∀ (is all : List ℕ) (heap : List Planet),
      (∀ p ∈ heap, massRadiusOK p) → ∀ p ∈ forceLoop is all heap, massRadiusOK p := by
  intro is
  induction is with
  | nil => intro all heap h; exact h
  | cons i rest ih =>
    intro all heap h
    apply ih
    apply inv_set h
    rw [massRadiusOK_congr
      ((agc_mass _).trans (gravityFold_proj Planet.mass apply_gravity_mass i all heap))
      ((agc_radius _).trans (gravityFold_proj Planet.radius apply_gravity_radius i all heap))]
    exact inv_getD h i

lemma integrateLoop_inv :
    ∀ (is : List ℕ) (dt : ℝ) (heap : List Planet),
      (∀ p ∈ heap, massRadiusOK p) → ∀ p ∈ integrateLoop is dt heap, massRadiusOK p := by
  intro is
  induction is with
  | nil => intro dt heap h; exact h
  | cons i rest ih =>
    intro dt heap h
    apply ih
    apply inv_set h
    rw [massRadiusOK_congr (update_position_mass _ _) (update_position_radius _ _)]
    exact inv_getD h i

lemma mkPlanet_massRadiusOK (x y vx vy : ℝ) (r : ℝ) (hr : MIN_RADIUS ≤ r) :
    massRadiusOK (mkPlanet x y r vx vy) := by
  constructor
  · show 0 < r * MASS_MULTIPLIER
    rw [MASS_MULTIPLIER]
    rw [MIN_RADIUS] at hr
    linarith
  · exact hr

lemma flag_set_massRadiusOK {p : Planet} (h : massRadiusOK p) (b : Bool) :
    massRadiusOK { p with is_largest := b } := h

lemma stepEvent_inv (s : SimState) (e : Event) (h : ∀ p ∈ s.heap, massRadiusOK p) :
    ∀ p ∈ (stepEvent s e).heap, massRadiusOK p := by
  cases e with
  | createStandard px py diffMs tx ty =>
    have hnew : massRadiusOK (mkPlanet px py (max MIN_RADIUS ((diffMs / 100 : ℕ) : ℝ))
        ((tx - px) * 0.05) ((ty - py) * 0.05)) :=
      mkPlanet_massRadiusOK _ _ _ _ _ (le_max_left _ _)
    have happ : ∀ p ∈ s.heap ++ [mkPlanet px py (max MIN_RADIUS ((diffMs / 100 : ℕ) : ℝ))
        ((tx - px) * 0.05) ((ty - py) * 0.05)], massRadiusOK p := by
      intro p hp
      rcases List.mem_append.mp hp with h1 | h1
      · exact h _ h1
      · rcases List.mem_singleton.mp h1 with rfl
        exact hnew
    show ∀ p ∈ (match s.largest with | none => _ | some k => _ : SimState).heap, massRadiusOK p
    cases s.largest with
    | none => exact inv_set happ (flag_set_massRadiusOK hnew true) _
    | some k =>
      dsimp only
      split_ifs
      · exact inv_set (inv_set happ (flag_set_massRadiusOK (inv_getD happ k) false) k)
          (flag_set_massRadiusOK hnew true) _
      · exact happ
  | spawnNonColliding x y =>
    intro p hp
    rcases List.mem_append.mp hp with h1 | h1
    · exact h _ h1
    · rcases List.mem_singleton.mp h1 with rfl
      exact mkPlanet_massRadiusOK x y 0 0 MIN_RADIUS le_rfl
  | spawnGhost x y =>
    intro p hp
    rcases List.mem_append.mp hp with h1 | h1
    · exact h _ h1
    · rcases List.mem_singleton.mp h1 with rfl
      exact mkPlanet_massRadiusOK x y 0 0 MIN_RADIUS le_rfl
  | clear => exact h
  | tick dt =>
    exact integrateLoop_inv _ _ _ (forceLoop_inv _ _ _ (collideOuter_inv _ _ _ h))

lemma run_inv (es : List Event) : ∀ p ∈ (run es).heap, massRadiusOK p := by
  suffices hgen : ∀ (l : List Event) (s : SimState), (∀ p ∈ s.heap, massRadiusOK p) →
      ∀ p ∈ (l.foldl stepEvent s).heap, massRadiusOK p by
    exact hgen es _ (by intro p hp; simp at hp)
  intro l
  induction l with
  | nil => intro s h; exact h
  | cons e rest ih =>
    intro s h
    exact ih _ (stepEvent_inv s e h)

/-! ### Preservation of the largest-planet flag invariant -/

lemma agc_of_not_largest {p : Planet} (h : p.is_largest = false) :
    p.apply_gravity_to_center = p := by
  simp [Planet.apply_gravity_to_center, h]

lemma tick_flag (s : SimState) (dt : ℝ) (i : ℕ) :
    ((tick s dt).heap.getD i default).is_largest = (s.heap.getD i default).is_largest := by
  show ((integrateLoop _ dt (forceLoop _ _ (collideOuter s.pop s.heap []).1)).getD i
      default).is_largest = _
  rw [integrateLoop_getD_is_largest, forceLoop_getD_is_largest, collideOuter_getD_is_largest]

lemma largestConsistent_append {s : SimState} (h : largestConsistent s) {q : Planet}
    (hq : q.is_largest = false) (pop2 : List ℕ) :
    largestConsistent { heap := s.heap ++ [q], pop := pop2, largest := s.largest } := by
  intro i hi
  show s.largest = some i
  rcases lt_trichotomy i s.heap.length with hlt | heq | hgt
  · rw [show ({ heap := s.heap ++ [q], pop := pop2, largest := s.largest } : SimState).heap =
      s.heap ++ [q] from rfl, getD_append_lt s.heap [q] i hlt] at hi
    exact h i hi
  · rw [show ({ heap := s.heap ++ [q], pop := pop2, largest := s.largest } : SimState).heap =
      s.heap ++ [q] from rfl, heq, getD_append_len] at hi
    rw [hq] at hi
    cases hi
  · rw [show ({ heap := s.heap ++ [q], pop := pop2, largest := s.largest } : SimState).heap =
      s.heap ++ [q] from rfl, getD_append_gt s.heap q default i hgt] at hi
    cases hi

lemma stepEvent_largestConsistent (s : SimState) (e : Event) (h : largestConsistent s) :
    largestConsistent (stepEvent s e) := by
  cases e with
  | createStandard px py diffMs tx ty =>
    cases hl : s.largest with
    | none =>
      have hred : stepEvent s (.createStandard px py diffMs tx ty) =
          { heap := (s.heap ++ [mkPlanet px py (max MIN_RADIUS ((diffMs / 100 : ℕ) : ℝ))
              ((tx - px) * 0.05) ((ty - py) * 0.05)]).set s.heap.length
              { mkPlanet px py (max MIN_RADIUS ((diffMs / 100 : ℕ) : ℝ))
                ((tx - px) * 0.05) ((ty - py) * 0.05) with is_largest := true },
            pop := s.pop ++ [s.heap.length], largest := some s.heap.length } := by
        simp only [stepEvent, hl]
      rw [hred]
      intro i hi
      show some s.heap.length = some i
      rw [show ({ heap := _, pop := _, largest := _ } : SimState).heap =
        (s.heap ++ [_]).set s.heap.length _ from rfl, getD_set] at hi
      split at hi
      · next hc => rw [hc.1]
      · next hc =>
        have hni : s.heap.length ≠ i := by
          intro he
          exact hc ⟨he, by simp⟩
        rcases lt_trichotomy i s.heap.length with hlt | heq | hgt
        · rw [getD_append_lt s.heap _ i hlt] at hi
          have := h i hi
          rw [hl] at this
          cases this
        · exact absurd heq.symm hni
        · rw [getD_append_gt s.heap _ default i hgt] at hi
          cases hi
    | some k =>
      by_cases hr : max MIN_RADIUS ((diffMs / 100 : ℕ) : ℝ) >
          (s.heap.getD k default).radius
      · have hred : stepEvent s (.createStandard px py diffMs tx ty) =
            { heap := ((s.heap ++ [mkPlanet px py (max MIN_RADIUS ((diffMs / 100 : ℕ) : ℝ))
                ((tx - px) * 0.05) ((ty - py) * 0.05)]).set k
                { (s.heap ++ [mkPlanet px py (max MIN_RADIUS ((diffMs / 100 : ℕ) : ℝ))
                    ((tx - px) * 0.05) ((ty - py) * 0.05)]).getD k default
                  with is_largest := false }).set s.heap.length
                { mkPlanet px py (max MIN_RADIUS ((diffMs / 100 : ℕ) : ℝ))
                  ((tx - px) * 0.05) ((ty - py) * 0.05) with is_largest := true },
              pop := s.pop ++ [s.heap.length], largest := some s.heap.length } := by
          simp only [stepEvent, hl, if_pos hr]
        rw [hred]
        intro i hi
        show some s.heap.length = some i
        rw [show ({ heap := _, pop := _, largest := _ } : SimState).heap =
          ((s.heap ++ [_]).set k _).set s.heap.length _ from rfl, getD_set] at hi
        split at hi
        · next hc => rw [hc.1]
        · next hc =>
          have hni : s.heap.length ≠ i := by
            intro he
            refine hc ⟨he, ?_⟩
            rw [List.length_set]
            simp
          rw [getD_set] at hi
          split at hi
          · simp at hi
          · next hc2 =>
            rcases lt_trichotomy i s.heap.length with hlt | heq | hgt
            · rw [getD_append_lt s.heap _ i hlt] at hi
              have hki := h i hi
              rw [hl] at hki
              have : k = i := Option.some.inj hki
              refine absurd ⟨this, ?_⟩ hc2
              rw [List.length_append]
              simp
              omega
            · exact absurd heq.symm hni
            · rw [getD_append_gt s.heap _ default i hgt] at hi
              cases hi
      · have hred : stepEvent s (.createStandard px py diffMs tx ty) =
            { heap := s.heap ++ [mkPlanet px py (max MIN_RADIUS ((diffMs / 100 : ℕ) : ℝ))
                ((tx - px) * 0.05) ((ty - py) * 0.05)],
              pop := s.pop ++ [s.heap.length], largest := some k } := by
          simp only [stepEvent, hl, if_neg hr]
        rw [hred, ← hl]
        exact largestConsistent_append h rfl _
  | spawnNonColliding x y => exact largestConsistent_append h rfl _
  | spawnGhost x y => exact largestConsistent_append h rfl _
  | clear => exact h
  | tick dt =>
    intro i hi
    have hi2 : ((tick s dt).heap.getD i default).is_largest = true := hi
    rw [tick_flag] at hi2
    exact h i hi2

lemma run_largestConsistent (es : List Event) : largestConsistent (run es) := by
  suffices hgen : ∀ (l : List Event) (s : SimState), largestConsistent s →
      largestConsistent (l.foldl stepEvent s) by
    refine hgen es _ ?_
    intro i hi
    cases hi
  intro l
  induction l with
  | nil => intro s h; exact h
  | cons e rest ih =>
    intro s h
    exact ih _ (stepEvent_largestConsistent s e h)

/-! ### Claims -/

/-- C7: for every body and every dt, the integration step is semi-implicit
Euler in this exact order: velocity += acceleration*dt first, then
position += (updated velocity)*dt, and afterwards the acceleration
accumulator is reset to (0,0); no other fields change.  The second and
third conjuncts restate that the position update uses the already-updated
velocity. -/
theorem update_position_semi_implicit_euler (p : Planet) (dt : ℝ) :
    p.update_position dt =
      { p with
        vx := p.vx + p.ax * dt, vy := p.vy + p.ay * dt
        x := p.x + (p.vx + p.ax * dt) * dt, y := p.y + (p.vy + p.ay * dt) * dt
        ax := 0, ay := 0 }
    ∧ (p.update_position dt).x = p.x + (p.update_position dt).vx * dt
    ∧ (p.update_position dt).y = p.y + (p.update_position dt).vy * dt :=
  ⟨rfl, rfl, rfl⟩

/-- C4: merging the second body into the first sets radius to
sqrt(r1^2 + r2^2) truncated to an integer, mass to exactly m1 + m2, color to
the Color Mapper output for the new radius, and velocity to the
mass-weighted average in which the own velocity is weighted by the
already-updated self mass m1 + m2 and the absorbed velocity by the original
other mass m2, divided by m1 + m2; in particular radii 3 and 4 merge to
radius 5 and the merged mass is the exact sum. -/
theorem merge_mass_weighted (p o : Planet) :
    p.merge o =
      { p with
        radius := ((⌊Real.sqrt (p.radius ^ 2 + o.radius ^ 2)⌋ : ℤ) : ℝ)
        mass := p.mass + o.mass
        color := get_color_from_radius ((⌊Real.sqrt (p.radius ^ 2 + o.radius ^ 2)⌋ : ℤ) : ℝ)
        vx := (p.vx * (p.mass + o.mass) + o.vx * o.mass) / (p.mass + o.mass)
        vy := (p.vy * (p.mass + o.mass) + o.vy * o.mass) / (p.mass + o.mass) }
    ∧ ((mkPlanet 0 0 3 0 0).merge (mkPlanet 1 1 4 0 0)).radius = 5
    ∧ ((mkPlanet 0 0 3 0 0).merge (mkPlanet 1 1 4 0 0)).mass =
        (mkPlanet 0 0 3 0 0).mass + (mkPlanet 1 1 4 0 0).mass := by
  refine ⟨?_, ?_, merge_mass _ _⟩
  · simp only [Planet.merge, pyInt_of_nonneg (Real.sqrt_nonneg _)]
  · rw [merge_radius, show (mkPlanet 0 0 3 0 0).radius = 3 from rfl,
      show (mkPlanet 1 1 4 0 0).radius = 4 from rfl,
      show (3 : ℝ) ^ 2 + (4 : ℝ) ^ 2 = 25 by norm_num,
      sqrt_eval (by norm_num) (by norm_num : (5 : ℝ) * 5 = 25),
      show ⌊(5 : ℝ)⌋ = 5 from floor_eval (by norm_num) (by norm_num)]
    norm_num

/-- C8: for a non-negative radius the Color Mapper computes
f = clamp(radius / 200, 0, 1) and returns
(int(128 + 127 f), 0, int(128 - 128 f)); radius 0 maps to (128, 0, 128),
any radius at or past the saturation radius 200 maps to (255, 0, 0), and on
[0, 200] the red channel is non-decreasing and the blue channel
non-increasing. -/
theorem get_color_from_radius_spec (r s : ℝ) (hr : 0 ≤ r) (hrs : r ≤ s) :
    get_color_from_radius r =
      (⌊128 + max 0 (min 1 (r / 200)) * 127⌋, 0, ⌊128 - max 0 (min 1 (r / 200)) * 128⌋)
    ∧ get_color_from_radius 0 = (128, 0, 128)
    ∧ (200 ≤ r → get_color_from_radius r = (255, 0, 0))
    ∧ (s ≤ 200 →
        (get_color_from_radius r).1 ≤ (get_color_from_radius s).1
        ∧ (get_color_from_radius s).2.2 ≤ (get_color_from_radius r).2.2) := by
  have key : ∀ t : ℝ, 0 ≤ t →
      get_color_from_radius t =
        (⌊128 + min 1 (t / 200) * 127⌋, 0, ⌊128 - min 1 (t / 200) * 128⌋) := by
    intro t ht
    have hf0 : (0 : ℝ) ≤ min 1 (t / 200) := le_min (by norm_num) (by positivity)
    have hf1 : min 1 (t / 200) ≤ 1 := min_le_left _ _
    simp only [get_color_from_radius]
    rw [pyInt_of_nonneg (by nlinarith), pyInt_of_nonneg le_rfl,
      pyInt_of_nonneg (by nlinarith)]
    norm_num
  have hs : (0 : ℝ) ≤ s := hr.trans hrs
  have hclamp : ∀ t : ℝ, 0 ≤ t → max 0 (min 1 (t / 200)) = min 1 (t / 200) := fun t ht =>
    max_eq_right (le_min (by norm_num) (by positivity))
  refine ⟨?_, ?_, ?_, ?_⟩
  · rw [key r hr, hclamp r hr]
  · rw [key 0 le_rfl]
    norm_num
  · intro h200
    have : min 1 (r / 200) = 1 := min_eq_left (by rw [le_div_iff₀ (by norm_num)]; linarith)
    rw [key r hr, this]
    norm_num
  · intro _
    have hmono : min 1 (r / 200) ≤ min 1 (s / 200) :=
      min_le_min le_rfl (by gcongr)
    rw [key r hr, key s hs]
    exact ⟨Int.floor_le_floor (by nlinarith), Int.floor_le_floor (by nlinarith)⟩

/-- C6: applyGravityToCenter is the identity when the is-largest flag is
false, and also when the computed distance to the world center is below the
threshold; otherwise it adds the inverse-square contribution toward the
center with force magnitude 0.5 * G * mass^2 / distance^2. -/
theorem apply_gravity_to_center_spec (p : Planet) :
    (p.is_largest = false → p.apply_gravity_to_center = p)
    ∧ (centerDistance p < CENTER_THRESHOLD → p.apply_gravity_to_center = p)
    ∧ (p.is_largest = true → ¬ centerDistance p < CENTER_THRESHOLD →
        p.apply_gravity_to_center =
          { p with
            ax := p.ax + 0.5 * GRAVITATIONAL_CONSTANT * p.mass ^ 2 / centerDistance p ^ 2 *
              (CENTER.1 - p.x) / (centerDistance p * p.mass)
            ay := p.ay + 0.5 * GRAVITATIONAL_CONSTANT * p.mass ^ 2 / centerDistance p ^ 2 *
              (CENTER.2 - p.y) / (centerDistance p * p.mass) }) := by
  unfold centerDistance
  refine ⟨fun h => by simp [Planet.apply_gravity_to_center, h], fun h => ?_, fun h1 h2 => ?_⟩
  · simp only [Planet.apply_gravity_to_center]
    split_ifs with h1 <;> rfl
  · simp only [Planet.apply_gravity_to_center, h1, if_true, if_neg h2]
    ext <;> simp <;> ring

/-- C6 witness: the central pull evaluated on a flagged body at computed
distance 10.01 from the center, which is outside the dead zone. -/
theorem apply_gravity_to_center_spec_witness :
    centerProbe.is_largest = true
    ∧ ¬ centerDistance centerProbe < CENTER_THRESHOLD
    ∧ centerProbe.apply_gravity_to_center =
      { centerProbe with
        ax := centerProbe.ax +
          0.5 * GRAVITATIONAL_CONSTANT * centerProbe.mass ^ 2 / centerDistance centerProbe ^ 2 *
            (CENTER.1 - centerProbe.x) / (centerDistance centerProbe * centerProbe.mass)
        ay := centerProbe.ay +
          0.5 * GRAVITATIONAL_CONSTANT * centerProbe.mass ^ 2 / centerDistance centerProbe ^ 2 *
            (CENTER.2 - centerProbe.y) / (centerDistance centerProbe * centerProbe.mass) } := by
  have hd : centerDistance centerProbe = 10 + 0.01 := by
    unfold centerDistance
    rw [show centerProbe.x = 494 from rfl, show centerProbe.y = 492 from rfl,
      show CENTER.1 = 500 from rfl, show CENTER.2 = 500 from rfl,
      show ((500 : ℝ) - 494) ^ 2 + ((500 : ℝ) - 492) ^ 2 = 100 by norm_num,
      sqrt_eval (by norm_num) (by norm_num : (10 : ℝ) * 10 = 100)]
  have h2 : ¬ centerDistance centerProbe < CENTER_THRESHOLD := by
    rw [hd]
    norm_num [CENTER_THRESHOLD]
  exact ⟨rfl, h2, (apply_gravity_to_center_spec centerProbe).2.2 rfl h2⟩

/-- C1 counterexample: a Standard body at (0,0) with a Non-Colliding body
nearby at (3,4) — applyGravity of the Standard body with the Non-Colliding
body as argument is skipped entirely (the guard reads the collidability of
the argument), so the acceleration of the Standard body does not change. -/
theorem standard_gets_no_pull_from_noncolliding :
    (mkPlanet 0 0 5 0 0).apply_gravity (mkNonCollidingPlanet 3 4 5 0 0) = mkPlanet 0 0 5 0 0 :=
  rfl

/-- C1 amended: a Non-Colliding body exerts no gravitational pull on any
body (the applyGravity of any body with a non-collidable argument is a
no-op); it is instead the Non-Colliding body that receives gravity: its own
applyGravity with a collidable body as argument at distinct positions and
positive masses changes its acceleration by a non-zero contribution. -/
theorem noncolliding_gravity_direction (std nc : Planet)
    (h1 : nc.is_collidable = false) (h2 : nc.kind = .noncolliding)
    (h3 : std.is_collidable = true) (h4 : nc.x ≠ std.x)
    (h5 : 0 < nc.mass) (h6 : 0 < std.mass) :
    std.apply_gravity nc = std ∧ (nc.apply_gravity std).ax ≠ nc.ax := by
  constructor
  · cases hk : std.kind <;> simp [Planet.apply_gravity, hk, h1]
  · simp only [Planet.apply_gravity, h2, h3, if_true, gravityBump]
    set d : ℝ := Real.sqrt ((std.x - nc.x) ^ 2 + (std.y - nc.y) ^ 2) + 0.01 with hdDef
    have hdx : std.x - nc.x ≠ 0 := sub_ne_zero.mpr fun e => h4 e.symm
    have hd : 0 < d := by rw [hdDef]; positivity
    have hG : (0 : ℝ) < GRAVITATIONAL_CONSTANT := by norm_num [GRAVITATIONAL_CONSTANT]
    have hne : GRAVITATIONAL_CONSTANT * nc.mass * std.mass / d ^ 2 * (std.x - nc.x) /
        (d * nc.mass) ≠ 0 := by
      apply div_ne_zero
      · exact mul_ne_zero
          (div_pos (mul_pos (mul_pos hG h5) h6) (pow_pos hd 2)).ne' hdx
      · exact (mul_pos hd h5).ne'
    intro hEq
    exact hne (by linarith)

/-- C1 witness: a Non-Colliding body at (0,0) and a Standard body at (3,4),
both of radius 5 and mass 5. -/
theorem noncolliding_gravity_direction_witness :
    (mkNonCollidingPlanet 0 0 5 0 0).is_collidable = false
    ∧ (mkPlanet 3 4 5 0 0).is_collidable = true
    ∧ (mkNonCollidingPlanet 0 0 5 0 0).x ≠ (mkPlanet 3 4 5 0 0).x
    ∧ 0 < (mkNonCollidingPlanet 0 0 5 0 0).mass
    ∧ 0 < (mkPlanet 3 4 5 0 0).mass
    ∧ (mkPlanet 3 4 5 0 0).apply_gravity (mkNonCollidingPlanet 0 0 5 0 0) = mkPlanet 3 4 5 0 0
    ∧ ((mkNonCollidingPlanet 0 0 5 0 0).apply_gravity (mkPlanet 3 4 5 0 0)).ax ≠
        (mkNonCollidingPlanet 0 0 5 0 0).ax := by
  have hm1 : 0 < (mkNonCollidingPlanet 0 0 5 0 0).mass := by
    norm_num [mkNonCollidingPlanet, mkPlanet, MASS_MULTIPLIER]
  have hm2 : 0 < (mkPlanet 3 4 5 0 0).mass := by norm_num [mkPlanet, MASS_MULTIPLIER]
  have hx : (mkNonCollidingPlanet 0 0 5 0 0).x ≠ (mkPlanet 3 4 5 0 0).x := by
    norm_num [mkNonCollidingPlanet, mkPlanet]
  obtain ⟨ha, hb⟩ := noncolliding_gravity_direction (mkPlanet 3 4 5 0 0)
    (mkNonCollidingPlanet 0 0 5 0 0) rfl rfl rfl hx hm1 hm2
  exact ⟨rfl, rfl, hx, hm1, hm2, ha, hb⟩

/-- C2 amended: a Ghost body never triggers a merge through its own
collision test — the override returns false with no state change regardless
of overlap — but it can still be absorbed and removed when it is the
argument of the collision test of an earlier Standard body (the base test
never consults collidability). -/
theorem ghost_collision_test_is_inert (g o : Planet) (h : g.kind = .ghost) :
    g.check_collision o = (false, g) := by
  simp [Planet.check_collision, h]

/-- C2 amended witness: a Ghost body fully overlapping a Standard body still
reports no collision from its own test. -/
theorem ghost_collision_test_is_inert_witness :
    (mkGhostPlanet 3 4 5 0 0).kind = .ghost
    ∧ (mkGhostPlanet 3 4 5 0 0).check_collision (mkPlanet 0 0 5 0 0) =
        (false, mkGhostPlanet 3 4 5 0 0) :=
  ⟨rfl, ghost_collision_test_is_inert _ _ rfl⟩

/-- C2 counterexample: in the reachable population with a Standard body at
(0,0) and a Ghost body at (3,4), both of radius 5 (center distance 5 < 10),
one tick adds the Ghost body to the removal set and drops it from the
population: the claim that a Ghost body is never removed is false. -/
theorem ghost_removed_by_standard_collision :
    (run [.createStandard 0 0 0 0 0, .spawnGhost 3 4]).pop = [0, 1]
    ∧ ((run [.createStandard 0 0 0 0 0, .spawnGhost 3 4]).heap.getD 1 default).kind = .ghost
    ∧ (run [.createStandard 0 0 0 0 0, .spawnGhost 3 4, .tick TIME_STEP]).pop = [0] := by
  refine ⟨rfl, rfl, ?_⟩
  have h5 : Real.sqrt 25 = 5 := sqrt_eval (by norm_num) (by norm_num)
  norm_num [run, stepEvent, tick, collideOuter, collideInner, Planet.check_collision,
    mkPlanet, mkGhostPlanet, mkNonCollidingPlanet, MIN_RADIUS, MASS_MULTIPLIER, h5,
    List.filter]

/-- C3 counterexample: merging two reachable bodies of radius 5 and mass 5
yields mass 10 but truncated radius 7, so mass = radius * massMultiplier
fails after the merge operation. -/
theorem merged_mass_not_proportional :
    0 ∈ (run [.createStandard 0 0 0 0 0, .createStandard 3 4 0 3 4, .tick TIME_STEP]).pop
    ∧ ((run [.createStandard 0 0 0 0 0, .createStandard 3 4 0 3 4,
        .tick TIME_STEP]).heap.getD 0 default).mass = 10
    ∧ ((run [.createStandard 0 0 0 0 0, .createStandard 3 4 0 3 4,
        .tick TIME_STEP]).heap.getD 0 default).radius = 7
    ∧ ((run [.createStandard 0 0 0 0 0, .createStandard 3 4 0 3 4,
        .tick TIME_STEP]).heap.getD 0 default).mass ≠
      ((run [.createStandard 0 0 0 0 0, .createStandard 3 4 0 3 4,
        .tick TIME_STEP]).heap.getD 0 default).radius * MASS_MULTIPLIER := by
  have h5 : Real.sqrt 25 = 5 := sqrt_eval (by norm_num) (by norm_num)
  have hmem : 0 ∈ (run [.createStandard 0 0 0 0 0, .createStandard 3 4 0 3 4,
      .tick TIME_STEP]).pop := by
    norm_num [run, stepEvent, tick, collideOuter, collideInner, Planet.check_collision,
      mkPlanet, MIN_RADIUS, MASS_MULTIPLIER, h5, List.filter]
  have hmass : ((run [.createStandard 0 0 0 0 0, .createStandard 3 4 0 3 4,
      .tick TIME_STEP]).heap.getD 0 default).mass = 10 := by
    norm_num [run, stepEvent, tick, collideOuter, collideInner, Planet.check_collision,
      mkPlanet, MIN_RADIUS, MASS_MULTIPLIER, h5, getD_set, merge_mass]
  have hrad : ((run [.createStandard 0 0 0 0 0, .createStandard 3 4 0 3 4,
      .tick TIME_STEP]).heap.getD 0 default).radius = 7 := by
    norm_num [run, stepEvent, tick, collideOuter, collideInner, Planet.check_collision,
      mkPlanet, MIN_RADIUS, MASS_MULTIPLIER, h5, getD_set, merge_radius, floor_sqrt_50]
  refine ⟨hmem, hmass, hrad, ?_⟩
  rw [hmass, hrad]
  norm_num [MASS_MULTIPLIER]

/-- C3 (amended): every body in a reachable population has strictly
positive mass and radius at least the configured minimum after every
operation, and mass = radius * massMultiplier holds at construction; the
proportionality is not preserved by merge, which sums the masses while
truncating the combined radius. -/
theorem mass_positive_radius_min (es : List Event) (i : ℕ) (hi : i ∈ (run es).pop) :
    (0 < ((run es).heap.getD i default).mass
      ∧ MIN_RADIUS ≤ ((run es).heap.getD i default).radius)
    ∧ (∀ x y r vx vy : ℝ,
        (mkPlanet x y r vx vy).mass = r * MASS_MULTIPLIER
        ∧ (mkNonCollidingPlanet x y r vx vy).mass = r * MASS_MULTIPLIER
        ∧ (mkGhostPlanet x y r vx vy).mass = r * MASS_MULTIPLIER) :=
  ⟨inv_getD (run_inv es) i, fun _ _ _ _ _ => ⟨rfl, rfl, rfl⟩⟩

/-- C3 witness: the invariant read off the population after a single ghost
spawn. -/
theorem mass_positive_radius_min_witness :
    0 ∈ (run [.spawnGhost 0 0]).pop
    ∧ 0 < ((run [.spawnGhost 0 0]).heap.getD 0 default).mass
    ∧ MIN_RADIUS ≤ ((run [.spawnGhost 0 0]).heap.getD 0 default).radius := by
  have hi : 0 ∈ (run [.spawnGhost 0 0]).pop := by
    show (0 : ℕ) ∈ [0]
    simp
  obtain ⟨⟨h1, h2⟩, _⟩ := mass_positive_radius_min [.spawnGhost 0 0] 0 hi
  exact ⟨hi, h1, h2⟩

/-- C9 counterexample: two reachable overlapping bodies, the second with
velocity (1, 0); a tick with dt = 0 merges them and the surviving body
leaves with velocity 1/2 instead of its previous 0, so the claim that every
surviving body keeps its velocity under tick(0) is false. -/
theorem tick_zero_velocity_changed_by_merge :
    0 ∈ (run [.createStandard 0 0 0 0 0, .createStandard 3 4 0 23 4, .tick 0]).pop
    ∧ ((run [.createStandard 0 0 0 0 0, .createStandard 3 4 0 23 4]).heap.getD 0
        default).vx = 0
    ∧ ((run [.createStandard 0 0 0 0 0, .createStandard 3 4 0 23 4, .tick 0]).heap.getD 0
        default).vx = 1 / 2 := by
  have h5 : Real.sqrt 25 = 5 := sqrt_eval (by norm_num) (by norm_num)
  have hmem : 0 ∈ (run [.createStandard 0 0 0 0 0, .createStandard 3 4 0 23 4,
      .tick 0]).pop := by
    norm_num [run, stepEvent, tick, collideOuter, collideInner, Planet.check_collision,
      mkPlanet, MIN_RADIUS, MASS_MULTIPLIER, h5, List.filter]
  refine ⟨hmem, ?_, ?_⟩
  · norm_num [run, stepEvent, mkPlanet, MIN_RADIUS, MASS_MULTIPLIER, getD_set]
  · have hv := congrArg Planet.vx
      (tick_zero_heap (run [.createStandard 0 0 0 0 0, .createStandard 3 4 0 23 4]) 0 hmem)
    rw [show ((run [.createStandard 0 0 0 0 0, .createStandard 3 4 0 23 4, .tick 0]).heap.getD 0
        default).vx =
      ((tick (run [.createStandard 0 0 0 0 0, .createStandard 3 4 0 23 4]) 0).heap.getD 0
        default).vx from rfl, hv]
    norm_num [run, stepEvent, collideOuter, collideInner, Planet.check_collision,
      mkPlanet, MIN_RADIUS, MASS_MULTIPLIER, h5, getD_set]

/-- C9 (amended): a tick with dt = 0 still evaluates the collision/merge
pass (the surviving population is exactly the collision-filtered one, and
each survivor is the post-collision body with its acceleration accumulator
cleared); every surviving body keeps its position, and its velocity is the
post-collision one, which differs from the pre-tick value exactly when the
body absorbed another body in the merge pass. -/
theorem tick_zero_spec (s : SimState) :
    (tick s 0).pop = s.pop.filter (fun i => decide (i ∉ (collideOuter s.pop s.heap []).2))
    ∧ ∀ i : ℕ, i ∈ (tick s 0).pop →
        (tick s 0).heap.getD i default =
          { (collideOuter s.pop s.heap []).1.getD i default with ax := 0, ay := 0 }
        ∧ ((tick s 0).heap.getD i default).x = (s.heap.getD i default).x
        ∧ ((tick s 0).heap.getD i default).y = (s.heap.getD i default).y
        ∧ ((tick s 0).heap.getD i default).vx =
            ((collideOuter s.pop s.heap []).1.getD i default).vx
        ∧ ((tick s 0).heap.getD i default).vy =
            ((collideOuter s.pop s.heap []).1.getD i default).vy := by
  refine ⟨rfl, fun i hi => ?_⟩
  have h := tick_zero_heap s i hi
  refine ⟨h, ?_, ?_, ?_, ?_⟩
  · rw [congrArg Planet.x h]
    exact collideOuter_getD_x s.pop s.heap [] i
  · rw [congrArg Planet.y h]
    exact collideOuter_getD_y s.pop s.heap [] i
  · rw [congrArg Planet.vx h]
  · rw [congrArg Planet.vy h]

/-- C9 witness: a single-body population ticked with dt = 0 keeps its
position and velocity while the collision pass is evaluated. -/
theorem tick_zero_spec_witness :
    0 ∈ (tick (run [.createStandard 0 0 0 0 0]) 0).pop
    ∧ ((tick (run [.createStandard 0 0 0 0 0]) 0).heap.getD 0 default).x =
        ((run [.createStandard 0 0 0 0 0]).heap.getD 0 default).x
    ∧ ((tick (run [.createStandard 0 0 0 0 0]) 0).heap.getD 0 default).vx =
        ((collideOuter (run [.createStandard 0 0 0 0 0]).pop
          (run [.createStandard 0 0 0 0 0]).heap []).1.getD 0 default).vx := by
  have hmem : 0 ∈ (tick (run [.createStandard 0 0 0 0 0]) 0).pop := by
    norm_num [run, stepEvent, tick, collideOuter, collideInner, List.filter]
  obtain ⟨-, hx, -, hvx, -⟩ := (tick_zero_spec (run [.createStandard 0 0 0 0 0])).2 0 hmem
  exact ⟨hmem, hx, hvx⟩

/-- C5: for every event sequence, at most one body in the population holds
the is-largest flag, and the largest reference is only ever reassigned by a
standard creation whose radius strictly exceeds the radius of the current
holder. -/
theorem at_most_one_largest (es : List Event) :
    (∀ i j : ℕ, i ∈ (run es).pop → j ∈ (run es).pop →
      ((run es).heap.getD i default).is_largest = true →
      ((run es).heap.getD j default).is_largest = true → i = j)
    ∧ (∀ (e : Event) (k : ℕ), (run es).largest = some k →
        (stepEvent (run es) e).largest ≠ (run es).largest →
        ∃ px py diffMs tx ty, e = Event.createStandard px py diffMs tx ty ∧
          ((run es).heap.getD k default).radius <
            max MIN_RADIUS ((diffMs / 100 : ℕ) : ℝ)) := by
  have hc := run_largestConsistent es
  constructor
  · intro i j _ _ hi hj
    have h1 := hc i hi
    have h2 := hc j hj
    rw [h1] at h2
    exact Option.some.inj h2
  · intro e k hk hne
    cases e with
    | createStandard px py diffMs tx ty =>
      refine ⟨px, py, diffMs, tx, ty, rfl, ?_⟩
      by_cases hr : max MIN_RADIUS ((diffMs / 100 : ℕ) : ℝ) >
          ((run es).heap.getD k default).radius
      · exact hr
      · exfalso
        apply hne
        have hred : (stepEvent (run es) (.createStandard px py diffMs tx ty)).largest =
            some k := by
          simp only [stepEvent, hk, if_neg hr]
        rw [hred, hk]
    | spawnNonColliding x y => exact absurd rfl hne
    | spawnGhost x y => exact absurd rfl hne
    | clear => exact absurd rfl hne
    | tick dt => exact absurd rfl hne

/-- C5 witness: one standard creation takes the flag; a second creation
with a strictly larger radius (700 ms of hold, radius 7 over radius 5)
reassigns the reference, and the theorem recovers the creating event and
the strict radius increase. -/
theorem at_most_one_largest_witness :
    (run [.createStandard 0 0 0 0 0]).largest = some 0
    ∧ (stepEvent (run [.createStandard 0 0 0 0 0])
        (.createStandard 0 0 700 0 0)).largest ≠ (run [.createStandard 0 0 0 0 0]).largest
    ∧ ∃ px py diffMs tx ty,
        (Event.createStandard 0 0 700 0 0 : Event) = Event.createStandard px py diffMs tx ty ∧
        ((run [.createStandard 0 0 0 0 0]).heap.getD 0 default).radius <
          max MIN_RADIUS ((diffMs / 100 : ℕ) : ℝ) := by
  have h1 : (run [.createStandard 0 0 0 0 0]).largest = some 0 := rfl
  have h2 : (stepEvent (run [.createStandard 0 0 0 0 0])
      (.createStandard 0 0 700 0 0)).largest ≠ (run [.createStandard 0 0 0 0 0]).largest := by
    rw [h1]
    norm_num [run, stepEvent, mkPlanet, MIN_RADIUS, getD_set]
  exact ⟨h1, h2,
    (at_most_one_largest [.createStandard 0 0 0 0 0]).2 (.createStandard 0 0 700 0 0) 0 h1 h2⟩

/-- C10: the clear command empties the population but leaves the (now
stale) largest reference in place, so a standard body created afterwards
with radius at most the removed holder radius does not receive the flag:
the population is then non-empty while no body in it is flagged, and the
new body is exempt from the central restoring force. -/
theorem clear_keeps_largest_reference (s : SimState) (k : ℕ) (px py tx ty : ℝ) (diffMs : ℕ)
    (hk : s.largest = some k) (hkl : k < s.heap.length)
    (hr : max MIN_RADIUS ((diffMs / 100 : ℕ) : ℝ) ≤ (s.heap.getD k default).radius) :
    (stepEvent s .clear).pop = []
    ∧ (stepEvent s .clear).heap = s.heap
    ∧ (stepEvent s .clear).largest = some k
    ∧ (stepEvent (stepEvent s .clear) (.createStandard px py diffMs tx ty)).largest = some k
    ∧ (stepEvent (stepEvent s .clear) (.createStandard px py diffMs tx ty)).pop =
        [s.heap.length]
    ∧ k ∉ (stepEvent (stepEvent s .clear) (.createStandard px py diffMs tx ty)).pop
    ∧ ((stepEvent (stepEvent s .clear) (.createStandard px py diffMs tx ty)).heap.getD
        s.heap.length default).is_largest = false
    ∧ ((stepEvent (stepEvent s .clear) (.createStandard px py diffMs tx ty)).heap.getD
        s.heap.length default).apply_gravity_to_center =
      (stepEvent (stepEvent s .clear) (.createStandard px py diffMs tx ty)).heap.getD
        s.heap.length default := by
  have hstep : stepEvent (stepEvent s .clear) (.createStandard px py diffMs tx ty) =
      { heap := s.heap ++ [mkPlanet px py (max MIN_RADIUS ((diffMs / 100 : ℕ) : ℝ))
          ((tx - px) * 0.05) ((ty - py) * 0.05)],
        pop := [s.heap.length], largest := some k } := by
    show stepEvent { s with pop := [] } _ = _
    simp only [stepEvent, hk, if_neg (not_lt.mpr hr), List.nil_append]
  have hflag : ((stepEvent (stepEvent s .clear)
      (.createStandard px py diffMs tx ty)).heap.getD s.heap.length default).is_largest =
      false := by
    rw [hstep, show ({ heap := s.heap ++ [_], pop := _, largest := _ } : SimState).heap =
      s.heap ++ [_] from rfl, getD_append_len]
    rfl
  refine ⟨rfl, rfl, hk, ?_, ?_, ?_, hflag, agc_of_not_largest hflag⟩
  · rw [hstep]
  · rw [hstep]
  · rw [hstep]
    simp only [List.mem_singleton]
    omega

/-- C10 witness: a radius-6 body holds the flag, space clears the
population, and a radius-5 creation afterwards stays unflagged while the
stale reference persists. -/
theorem clear_keeps_largest_reference_witness :
    (run [.createStandard 0 0 600 0 0]).largest = some 0
    ∧ (0 : ℕ) < (run [.createStandard 0 0 600 0 0]).heap.length
    ∧ max MIN_RADIUS (((0 : ℕ) / 100 : ℕ) : ℝ) ≤
        ((run [.createStandard 0 0 600 0 0]).heap.getD 0 default).radius
    ∧ (stepEvent (stepEvent (run [.createStandard 0 0 600 0 0]) .clear)
        (.createStandard 50 50 0 0 0)).largest = some 0
    ∧ (stepEvent (stepEvent (run [.createStandard 0 0 600 0 0]) .clear)
        (.createStandard 50 50 0 0 0)).pop = [1]
    ∧ ((stepEvent (stepEvent (run [.createStandard 0 0 600 0 0]) .clear)
        (.createStandard 50 50 0 0 0)).heap.getD 1 default).is_largest = false := by
  have hk : (run [.createStandard 0 0 600 0 0]).largest = some 0 := rfl
  have hkl : (0 : ℕ) < (run [.createStandard 0 0 600 0 0]).heap.length := by
    show (0 : ℕ) < 1
    norm_num
  have hr : max MIN_RADIUS (((0 : ℕ) / 100 : ℕ) : ℝ) ≤
      ((run [.createStandard 0 0 600 0 0]).heap.getD 0 default).radius := by
    norm_num [run, stepEvent, mkPlanet, MIN_RADIUS, getD_set]
  obtain ⟨-, -, -, h4, h5, -, h7, -⟩ :=
    clear_keeps_largest_reference (run [.createStandard 0 0 600 0 0]) 0 50 50 0 0 0 hk hkl hr
  exact ⟨hk, hkl, hr, h4, h5, h7⟩

/-- C8 witness: the Color Mapper evaluated at radius 100 (with the
monotonicity pair 100 ≤ 150). -/
theorem get_color_from_radius_spec_witness :
    (0 : ℝ) ≤ 100 ∧ (100 : ℝ) ≤ 150 ∧ get_color_from_radius 100 = (191, 0, 64) := by
  refine ⟨by norm_num, by norm_num, ?_⟩
  rw [(get_color_from_radius_spec 100 150 (by norm_num) (by norm_num)).1,
    show (100 : ℝ) / 200 = 1 / 2 by norm_num,
    min_eq_right (by norm_num : (1 : ℝ) / 2 ≤ 1),
    max_eq_right (by norm_num : (0 : ℝ) ≤ 1 / 2),
    show (128 : ℝ) + 1 / 2 * 127 = 383 / 2 by norm_num,
    show (128 : ℝ) - 1 / 2 * 128 = 64 by norm_num,
    floor_eval (by norm_num) (by norm_num : (383 : ℝ) / 2 < 191 + 1),
    floor_eval (by norm_num) (by norm_num : (64 : ℝ) < 64 + 1)]
  norm_num

end

end Planets
